import Mathlib

/-!
Shallow embedding of the deterministic financial-projection and scoring
engine of the `future_roi_backend` repository.

Python floats are modelled as real numbers (`ℝ`) where fractional powers
occur (compound growth with fractional year exponents), and as rationals
(`ℚ`) in the purely arithmetic components (SIP calculator, health scoring,
diversification scoring) so that concrete inputs evaluate by `decide`.
Optional / nullable inputs are modelled with `Option`; Python truthiness of
a numeric field (`None` and `0` are both falsy) is modelled by comparing
with `0` after collapsing `None` to `0`, which is behaviourally faithful
because every such field is only ever read under a truthiness guard.
A Python function that can raise on a reachable input is modelled with
`Option`, returning `none` exactly on the raising inputs.
-/

namespace FutureRoi

/-- A zone record as read by the engine: only the `outlook` and `confidence`
string fields are consulted (`src/src/routes/portfolio.py`,
`src/src/routes/zones.py`). -/
structure Zone where
  outlook : String
  confidence : String

/-! ## Growth projector (`calculate_investment_returns`, portfolio.py 420-500) -/

/-- The `return_rates` dict of `calculate_investment_returns`
(portfolio.py 424-431), including the `.get(..., 10.0)` default. -/
def return_rates (investment_type : String) : ℝ :=
  if investment_type = "real_estate" then 12.0
  else if investment_type = "sip" then 12.0
  else if investment_type = "stocks" then 15.0
  else if investment_type = "fixed_deposit" then 6.5
  else if investment_type = "gold" then 8.0
  else if investment_type = "ppf" then 7.1
  else 10.0

/-- The `risk_levels` dict (portfolio.py 434-441) with its `.get with default "MEDIUM"`
default. -/
def risk_levels (investment_type : String) : String :=
  if investment_type = "real_estate" then "MEDIUM"
  else if investment_type = "sip" then "MEDIUM"
  else if investment_type = "stocks" then "HIGH"
  else if investment_type = "fixed_deposit" then "LOW"
  else if investment_type = "gold" then "LOW"
  else if investment_type = "ppf" then "LOW"
  else "MEDIUM"

/-- The `liquidity` dict (portfolio.py 444-451) with its `.get with default "MEDIUM"`
default. -/
def liquidity_ratings (investment_type : String) : String :=
  if investment_type = "real_estate" then "LOW"
  else if investment_type = "sip" then "MEDIUM"
  else if investment_type = "stocks" then "HIGH"
  else if investment_type = "fixed_deposit" then "LOW"
  else if investment_type = "gold" then "HIGH"
  else if investment_type = "ppf" then "LOW"
  else "MEDIUM"

/-- The rate resolution of `calculate_investment_returns` (portfolio.py
453-460): table lookup, then the zone outlook adjustment applied only for
`real_estate` with a zone present.  Note that the zone `confidence`
field is never consulted here. -/
def resolved_base_rate (investment_type : String) (zone : Option Zone) : ℝ :=
  let base := return_rates investment_type
  if investment_type = "real_estate" then
    match zone with
    | some z =>
        if z.outlook = "HIGH" then base + 2.0
        else if z.outlook = "LOW" then base - 2.0
        else base
    | none => base
  else base

/-- The compound-growth expression `amount * ((1 + rate/100) ** years)`
used for the base case and both stress scenarios (portfolio.py 463-474).
`years` is a real exponent (Python `**` on floats). -/
noncomputable def compound_fv (amount rate_pct years : ℝ) : ℝ :=
  amount * (1 + rate_pct / 100) ^ years

/-- The record returned by `calculate_investment_returns`
(portfolio.py 476-500), with the nested `stress_scenarios` dict flattened. -/
structure ProjectionResult where
  investment_type : String
  amount : ℝ
  horizon_months : ℝ
  annual_return_rate : ℝ
  future_value : ℝ
  total_returns : ℝ
  roi_percentage : ℝ
  risk_level : String
  liquidity : String
  optimistic_rate : ℝ
  optimistic_future_value : ℝ
  optimistic_roi_percentage : ℝ
  pessimistic_rate : ℝ
  pessimistic_future_value : ℝ
  pessimistic_roi_percentage : ℝ

/-- The successful body of `calculate_investment_returns`
(portfolio.py 453-500). -/
noncomputable def projection (investment_type : String) (amount horizon_months : ℝ)
    (zone : Option Zone) : ProjectionResult :=
  let base_rate := resolved_base_rate investment_type zone
  let years := horizon_months / 12
  let future_value := compound_fv amount base_rate years
  let total_returns := future_value - amount
  let optimistic_rate := base_rate + 3.0
  let pessimistic_rate := max (base_rate - 3.0) 1.0
  let optimistic_value := compound_fv amount optimistic_rate years
  let pessimistic_value := compound_fv amount pessimistic_rate years
  { investment_type := investment_type
    amount := amount
    horizon_months := horizon_months
    annual_return_rate := base_rate
    future_value := future_value
    total_returns := total_returns
    roi_percentage := total_returns / amount * 100
    risk_level := risk_levels investment_type
    liquidity := liquidity_ratings investment_type
    optimistic_rate := optimistic_rate
    optimistic_future_value := optimistic_value
    optimistic_roi_percentage := (optimistic_value - amount) / amount * 100
    pessimistic_rate := pessimistic_rate
    pessimistic_future_value := pessimistic_value
    pessimistic_roi_percentage := (pessimistic_value - amount) / amount * 100 }

/-- `calculate_investment_returns` (portfolio.py 420-500).  The function
performs no input validation; the only raising input is `amount = 0`,
where `roi_percentage = (total_returns / amount) * 100` raises
`ZeroDivisionError` before the result dict is built. -/
noncomputable def calculate_investment_returns (investment_type : String)
    (amount horizon_months : ℝ) (zone : Option Zone) : Option ProjectionResult :=
  if amount = 0 then none
  else some (projection investment_type amount horizon_months zone)

/-- The comparator realised by `comparisons.sort(key=lambda x:
x[roi_percentage], reverse=True)` (portfolio.py 64-65): `a` may precede `b`
exactly when the ROI of `a` is at least that of `b`. -/
noncomputable def roi_descending (a b : ProjectionResult) : Bool :=
  decide (b.roi_percentage ≤ a.roi_percentage)

/-- `compare_investments` (portfolio.py 11-65), up to the sort: the list of
per-asset-class results (real estate first when a zone was found, then
sip, stocks, fixed_deposit, gold, ppf), sorted by `roi_percentage`
descending via the stable Python sort (portfolio.py 64-65), modelled by a
stable merge sort.  As in `calculate_investment_returns`, `amount = 0`
raises before any list is produced. -/
noncomputable def compare_investments (amount horizon_months : ℝ) (zone : Option Zone) :
    Option (List ProjectionResult) :=
  if amount = 0 then none
  else
    let comparisons :=
      (match zone with
       | some z => [projection "real_estate" amount horizon_months (some z)]
       | none => []) ++
      [projection "sip" amount horizon_months none,
       projection "stocks" amount horizon_months none,
       projection "fixed_deposit" amount horizon_months none,
       projection "gold" amount horizon_months none,
       projection "ppf" amount horizon_months none]
    some (comparisons.mergeSort roi_descending)

/-! ## Zone ROI variant (`calculate_roi_for_zone`, zones.py 157-222) -/

/-- The `base_rates` nested dict of `calculate_roi_for_zone`
(zones.py 161-165) together with both `.get` defaults: an unknown outlook
falls back to the "MODERATE" row, an unknown investment type to `8`
(zones.py 174). -/
def zone_base_rate (outlook investment_type : String) : ℝ :=
  if outlook = "HIGH" then
    (if investment_type = "real_estate" then 12 else if investment_type = "stocks" then 15
     else if investment_type = "sip" then 12 else if investment_type = "bonds" then 7 else 8)
  else if outlook = "LOW" then
    (if investment_type = "real_estate" then 5 else if investment_type = "stocks" then 8
     else if investment_type = "sip" then 8 else if investment_type = "bonds" then 5 else 8)
  else
    (if investment_type = "real_estate" then 8 else if investment_type = "stocks" then 12
     else if investment_type = "sip" then 10 else if investment_type = "bonds" then 6 else 8)

/-- The `confidence_multipliers` dict (zones.py 168-172) with its
`.get(..., 0.9)` default (zones.py 175). -/
def confidence_multiplier (confidence : String) : ℝ :=
  if confidence = "HIGH" then 1.0
  else if confidence = "MEDIUM" then 0.9
  else if confidence = "LOW" then 0.8
  else 0.9

/-- The `adjusted_rate` of `calculate_roi_for_zone` (zones.py 174-178):
outlook-dependent table rate times the confidence multiplier.  No additive
outlook offset appears in this variant. -/
def zone_adjusted_roi_rate (zone : Zone) (investment_type : String) : ℝ :=
  zone_base_rate zone.outlook investment_type * confidence_multiplier zone.confidence

/-- Modelled from the spec: the outlook offset spec section 3 attributes to
zone context (`+2.0` for HIGH outlook, `−2.0` for LOW, `0` for MODERATE),
used to compare the rate-resolution formula of the spec with that of the code. -/
def outlook_offset_spec (outlook : String) : ℝ :=
  if outlook = "HIGH" then 2.0 else if outlook = "LOW" then -2.0 else 0

/-! ## SIP calculator (`sip_calculator`, portfolio.py 344-418)

All arithmetic here is rational (additions, multiplications, divisions and
natural powers of floats), so it is embedded over `ℚ` and evaluates by
`decide`. -/

/-- `monthly_return = annual_return / 12 / 100` (portfolio.py 355). -/
def sip_monthly_return (annual_return : ℚ) : ℚ := annual_return / 12 / 100

/-- The SIP future value (portfolio.py 359-362): the annuity-due formula when
`monthly_return > 0`, otherwise the linear branch with no division. -/
def sip_future_value (monthly_sip annual_return : ℚ) (time_period : ℕ) : ℚ :=
  let monthly_return := sip_monthly_return annual_return
  let total_months : ℕ := time_period * 12
  if monthly_return > 0 then
    monthly_sip * (((1 + monthly_return) ^ total_months - 1) / monthly_return)
      * (1 + monthly_return)
  else monthly_sip * total_months

/-- `total_invested = monthly_sip * total_months` (portfolio.py 364). -/
def sip_total_invested (monthly_sip : ℚ) (time_period : ℕ) : ℚ :=
  monthly_sip * (time_period * 12 : ℕ)

/-- The lump-sum comparison value (portfolio.py 368-369):
`lump_sum_amount = total_invested`, compounded annually over the period. -/
def lump_sum_future_value (monthly_sip annual_return : ℚ) (time_period : ℕ) : ℚ :=
  sip_total_invested monthly_sip time_period * (1 + annual_return / 100) ^ time_period

/-- The `recommendation` field (portfolio.py 410):
the result is "SIP" when `sip_future_value > lump_sum_future_value` and "Lump Sum" otherwise. -/
def sip_recommendation (monthly_sip annual_return : ℚ) (time_period : ℕ) : String :=
  if sip_future_value monthly_sip annual_return time_period >
      lump_sum_future_value monthly_sip annual_return time_period
  then "SIP" else "Lump Sum"

/-! ## Financial health scorer (`calculate_financial_health_score`,
investments.py 398-514)

`monthly_income`, `monthly_expenses` and `liabilities` are nullable numeric
fields that the code only ever reads under a Python truthiness guard
(`if user.monthly_income:` etc.), under which `None` and `0` behave
identically; they are therefore collapsed to `ℚ` with `0` standing for
"absent or zero".  The asset snapshot itself can be absent (`if
asset_snapshot:`), which is kept as an `Option`. -/

/-- The asset-snapshot fields read by the health scorer
(investments.py 436-448, 464-466). -/
structure HealthSnapshot where
  savings : ℚ
  mf : ℚ
  stocks : ℚ
  gold : ℚ
  epf : ℚ
  real_estate : ℚ
  liabilities : ℚ

/-- Income factor, 20 points max (investments.py 403-416); skipped (0)
when income is falsy. -/
def income_points (monthly_income : ℚ) : ℚ :=
  if monthly_income ≠ 0 then
    if monthly_income ≥ 100000 then 20
    else if monthly_income ≥ 50000 then 15
    else if monthly_income ≥ 25000 then 10
    else 5
  else 0

/-- Expense-ratio factor, 20 points max (investments.py 418-432); skipped
(0) unless both income and expenses are truthy. -/
def expense_ratio_points (monthly_income monthly_expenses : ℚ) : ℚ :=
  if monthly_income ≠ 0 ∧ monthly_expenses ≠ 0 then
    let expense_ratio := monthly_expenses / monthly_income
    if expense_ratio ≤ 0.5 then 20
    else if expense_ratio ≤ 0.7 then 15
    else if expense_ratio ≤ 0.9 then 10
    else 5
  else 0

/-- Asset-diversification factor, 30 points max (investments.py 434-461);
skipped (0) when the snapshot is absent or its total is not positive. -/
def health_diversification_points (snapshot : Option HealthSnapshot) : ℚ :=
  match snapshot with
  | none => 0
  | some s =>
      let total_assets := s.savings + s.mf + s.stocks + s.gold + s.epf + s.real_estate
      if total_assets > 0 then
        let asset_types : ℕ :=
          (if s.savings > 0 then 1 else 0) + (if s.mf > 0 then 1 else 0)
          + (if s.stocks > 0 then 1 else 0) + (if s.gold > 0 then 1 else 0)
          + (if s.epf > 0 then 1 else 0) + (if s.real_estate > 0 then 1 else 0)
        if asset_types ≥ 4 then 30
        else if asset_types ≥ 3 then 20
        else if asset_types ≥ 2 then 15
        else 10
      else 0

/-- Debt factor, 20 points max (investments.py 463-481).  The
`else: score += 20` branch is attached to the *outer*
`if asset_snapshot and asset_snapshot.liabilities:` test, so when
liabilities are truthy but income is falsy the inner
`if user.monthly_income:` simply fails and the factor contributes 0. -/
def debt_points (snapshot : Option HealthSnapshot) (monthly_income : ℚ) : ℚ :=
  match snapshot with
  | some s =>
      if s.liabilities ≠ 0 then
        if monthly_income ≠ 0 then
          let debt_to_income := s.liabilities * 12 / monthly_income
          if debt_to_income ≤ 2 then 20
          else if debt_to_income ≤ 4 then 15
          else if debt_to_income ≤ 6 then 10
          else 5
        else 0
      else 20
  | none => 20

/-- Goal-setting factor, 10 points max (investments.py 483-495). -/
def goal_points (goals_count : ℕ) : ℚ :=
  if goals_count ≥ 3 then 10
  else if goals_count ≥ 2 then 8
  else if goals_count ≥ 1 then 5
  else 0

/-- The composite score of `calculate_financial_health_score`
(investments.py 398-510): sum of the five factors, capped at 100. -/
def calculate_financial_health_score (monthly_income monthly_expenses : ℚ)
    (snapshot : Option HealthSnapshot) (goals_count : ℕ) : ℚ :=
  min (income_points monthly_income
    + expense_ratio_points monthly_income monthly_expenses
    + health_diversification_points snapshot
    + debt_points snapshot monthly_income
    + goal_points goals_count) 100

/-! ## Portfolio diversification scorer (`calculate_diversification_score`,
dashboard.py 624-639)

The Python argument is the `asset_allocation` dict built in
`calculate_portfolio_risk` (dashboard.py 590-597); it is modelled as an
association list of (asset type, percentage) entries, so `len(dict)` is the
list length. -/

/-- `calculate_diversification_score` (dashboard.py 624-639): `0` for an
empty (falsy) dict, otherwise a step function of `len(asset_allocation)` —
the number of entries, regardless of their percentage values. -/
def calculate_diversification_score (asset_allocation : List (String × ℚ)) : ℕ :=
  if asset_allocation.isEmpty then 0
  else
    let num_assets := asset_allocation.length
    if num_assets = 1 then 20
    else if num_assets = 2 then 40
    else if num_assets ≥ 5 then 90
    else 60

/-- Modelled from the spec: the step function the spec describes
(`0→0, 1→20, 2→40, 3 or 4→60, ≥5→90`), to be compared with the code
scorer. -/
def diversification_step_spec (n : ℕ) : ℕ :=
  if n = 0 then 0
  else if n = 1 then 20
  else if n = 2 then 40
  else if n ≤ 4 then 60
  else 90

/-- Modelled from the spec: the count of distinct asset classes with
non-zero allocation, which the spec says the diversification score is a
step function of. -/
def nonzero_allocation_count (asset_allocation : List (String × ℚ)) : ℕ :=
  (asset_allocation.filter (fun p => p.2 ≠ 0)).length

/-! ## Theorems -/

/-- Every rate the projector can resolve is at least 6.5 (the smallest
table entry), so in particular non-negative. -/
theorem resolved_base_rate_ge (t : String) (z : Option Zone) :
    (6.5 : ℝ) ≤ resolved_base_rate t z := by
  rcases z with _ | z <;>
    · simp only [resolved_base_rate, return_rates]
      split_ifs <;> norm_num

/-- Compound growth is monotone in the rate for a non-negative amount and
exponent, as long as the smaller rate keeps the base non-negative. -/
theorem compound_fv_mono_rate (a r1 r2 y : ℝ) (ha : 0 ≤ a) (hr1 : -100 ≤ r1)
    (h12 : r1 ≤ r2) (hy : 0 ≤ y) : compound_fv a r1 y ≤ compound_fv a r2 y := by
  unfold compound_fv
  refine mul_le_mul_of_nonneg_left ?_ ha
  exact Real.rpow_le_rpow (by linarith) (by linarith) hy

/-- C1: for every projection the engine actually produces (any asset class,
positive amount and horizon, zone optional) the stress band brackets the
base case: `pessimistic.future_value ≤ future_value ≤
optimistic.future_value`.  The resolved base rate is always non-negative
(indeed at least 6.5), so the non-negativity proviso of the claim is
automatically satisfied. -/
theorem stress_band_brackets_base (t : String) (amount horizon_months : ℝ)
    (z : Option Zone) (ha : 0 < amount) (hh : 0 < horizon_months) :
    (calculate_investment_returns t amount horizon_months z).elim True fun r =>
      r.pessimistic_future_value ≤ r.future_value ∧
        r.future_value ≤ r.optimistic_future_value := by
  have hb := resolved_base_rate_ge t z
  unfold calculate_investment_returns
  rw [if_neg ha.ne']
  simp only [Option.elim_some, projection]
  constructor
  · refine compound_fv_mono_rate _ _ _ _ ha.le ?_ ?_ (by positivity)
    · have := le_max_right (resolved_base_rate t z - 3.0) 1.0
      linarith
    · exact max_le (by linarith) (by linarith)
  · exact compound_fv_mono_rate _ _ _ _ ha.le (by linarith) (by linarith) (by positivity)

/-- Witness for C1 at a concrete input. -/
theorem stress_band_brackets_base_witness :
    (calculate_investment_returns "sip" 1000 12 none).elim True fun r =>
      r.pessimistic_future_value ≤ r.future_value ∧
        r.future_value ≤ r.optimistic_future_value :=
  stress_band_brackets_base "sip" 1000 12 none (by norm_num) (by norm_num)

/-- C9: for a fixed positive horizon, asset class and zone context, the
projected `future_value` is strictly increasing in the invested amount. -/
theorem future_value_strict_mono_amount (t : String) (horizon_months : ℝ)
    (z : Option Zone) (a1 a2 : ℝ) (h1 : 0 < a1) (h12 : a1 < a2)
    (_hh : 0 < horizon_months) :
    (calculate_investment_returns t a1 horizon_months z).elim True fun r1 =>
      (calculate_investment_returns t a2 horizon_months z).elim True fun r2 =>
        r1.future_value < r2.future_value := by
  have hb := resolved_base_rate_ge t z
  unfold calculate_investment_returns
  rw [if_neg h1.ne', if_neg (h1.trans h12).ne']
  simp only [Option.elim_some, projection]
  unfold compound_fv
  have hc : 0 < (1 + resolved_base_rate t z / 100) ^ (horizon_months / 12) :=
    Real.rpow_pos_of_pos (by linarith) _
  exact mul_lt_mul_of_pos_right h12 hc

/-- Witness for C9 at a concrete input. -/
theorem future_value_strict_mono_amount_witness :
    (calculate_investment_returns "stocks" 1000 60 none).elim True fun r1 =>
      (calculate_investment_returns "stocks" 2000 60 none).elim True fun r2 =>
        r1.future_value < r2.future_value :=
  future_value_strict_mono_amount "stocks" 60 none 1000 2000 (by norm_num)
    (by norm_num) (by norm_num)

/-- C2 counterexample: at a zero return rate the SIP and lump-sum future
values are exactly equal, and the code recommends "Lump Sum", not "SIP" as
the claim states for ties. -/
theorem sip_tie_recommends_lump_sum :
    sip_future_value 1000 0 5 = lump_sum_future_value 1000 0 5 ∧
      sip_recommendation 1000 0 5 = "Lump Sum" := by
  constructor <;>
    norm_num [sip_future_value, sip_monthly_return, lump_sum_future_value,
      sip_total_invested, sip_recommendation]

/-- C2 (amended): the recommendation is "SIP" exactly when the SIP future
value is strictly greater than the lump-sum future value, and "Lump Sum"
otherwise — so ties favour Lump Sum, not SIP. -/
theorem sip_recommendation_strict (monthly_sip annual_return : ℚ) (time_period : ℕ) :
    (sip_recommendation monthly_sip annual_return time_period = "SIP" ↔
        lump_sum_future_value monthly_sip annual_return time_period <
          sip_future_value monthly_sip annual_return time_period) ∧
      (sip_recommendation monthly_sip annual_return time_period = "Lump Sum" ↔
        sip_future_value monthly_sip annual_return time_period ≤
          lump_sum_future_value monthly_sip annual_return time_period) := by
  unfold sip_recommendation
  split_ifs with h
  · exact ⟨⟨fun _ => h, fun _ => rfl⟩,
      ⟨fun hc => absurd hc (by decide), fun hle => absurd h (not_lt.mpr hle)⟩⟩
  · exact ⟨⟨fun hc => absurd hc (by decide), fun hlt => absurd hlt h⟩,
      ⟨fun _ => not_lt.mp h, fun _ => rfl⟩⟩

/-- C3 counterexample: for a HIGH-outlook, MEDIUM-confidence zone the
projector resolves the real-estate rate to 14.0, not to
`(12 + 2) * 0.9 = 12.6` as the claim computes: the confidence multiplier
is never applied in this code path. -/
theorem zone_confidence_multiplier_not_applied :
    resolved_base_rate "real_estate" (some ⟨"HIGH", "MEDIUM"⟩) ≠
      (return_rates "real_estate" + outlook_offset_spec "HIGH") *
        confidence_multiplier "MEDIUM" := by
  norm_num +decide [resolved_base_rate, return_rates, outlook_offset_spec,
    confidence_multiplier]

/-- C3 (amended): the two rate adjustments live in different code paths.
The portfolio projector adds the outlook offset to the real-estate table
rate and ignores confidence entirely, while the zone-ROI variant multiplies
an outlook-dependent table rate by the confidence multiplier (so MEDIUM
confidence scales that rate by 0.9 relative to HIGH confidence) with no
additive offset. -/
theorem zone_rate_resolution_split (z : Zone) (t : String) :
    resolved_base_rate "real_estate" (some z) =
        return_rates "real_estate" + outlook_offset_spec z.outlook ∧
      confidence_multiplier "MEDIUM" = 0.9 ∧
      zone_adjusted_roi_rate ⟨z.outlook, "MEDIUM"⟩ t =
        0.9 * zone_adjusted_roi_rate ⟨z.outlook, "HIGH"⟩ t := by
  refine ⟨?_, by norm_num +decide [confidence_multiplier], ?_⟩
  · norm_num +decide [resolved_base_rate, return_rates, outlook_offset_spec]
    split_ifs <;> norm_num
  · simp only [zone_adjusted_roi_rate]
    norm_num +decide [confidence_multiplier]
    ring

/-- C5 counterexample: an asset class absent from the rate table does not
fail the projection; the lookup default of 10.0 is used and a normal
result is returned. -/
theorem unknown_asset_class_projects :
    (calculate_investment_returns "crypto" 1000 12 none).isSome = true ∧
      (calculate_investment_returns "crypto" 1000 12 none).elim True
        (fun r => r.annual_return_rate = 10) := by
  unfold calculate_investment_returns
  rw [if_neg (by norm_num : ¬(1000 : ℝ) = 0)]
  refine ⟨rfl, ?_⟩
  simp only [Option.elim_some, projection]
  norm_num +decide [resolved_base_rate, return_rates]

/-- C5 (amended): the rate lookup never fails; for every asset-class name
outside the table the projection still succeeds (whenever the amount is
nonzero) and resolves the default base rate 10.0. -/
theorem unknown_asset_class_default_rate (t : String) (a h : ℝ) (z : Option Zone)
    (ha : a ≠ 0) (h1 : t ≠ "real_estate") (h2 : t ≠ "sip") (h3 : t ≠ "stocks")
    (h4 : t ≠ "fixed_deposit") (h5 : t ≠ "gold") (h6 : t ≠ "ppf") :
    (calculate_investment_returns t a h z).isSome = true ∧
      (calculate_investment_returns t a h z).elim True
        (fun r => r.annual_return_rate = 10) := by
  unfold calculate_investment_returns
  rw [if_neg ha]
  refine ⟨rfl, ?_⟩
  simp only [Option.elim_some, projection]
  simp [resolved_base_rate, return_rates, h1, h2, h3, h4, h5, h6]
  norm_num

/-- Witness for the amended C5 at a concrete unregistered class. -/
theorem unknown_asset_class_default_rate_witness :
    (calculate_investment_returns "bitcoin" 500 24 none).isSome = true ∧
      (calculate_investment_returns "bitcoin" 500 24 none).elim True
        (fun r => r.annual_return_rate = 10) :=
  unknown_asset_class_default_rate "bitcoin" 500 24 none (by norm_num)
    (by decide) (by decide) (by decide) (by decide) (by decide) (by decide)

/-- C6 counterexample: a negative amount and a non-positive horizon both
produce normal projection results; no `InvalidAmount` or `InvalidHorizon`
failure exists in the code. -/
theorem non_positive_inputs_not_rejected :
    (calculate_investment_returns "sip" (-100) 12 none).isSome = true ∧
      (calculate_investment_returns "sip" 1000 (-6) none).isSome = true := by
  constructor <;>
    · unfold calculate_investment_returns
      rw [if_neg (by norm_num)]
      rfl

/-- C6 (amended): the projector performs no input validation at all.  The
only failing input is `amount = 0` (a `ZeroDivisionError` raised while
computing `roi_percentage`); every other amount — negative amounts
included — and every horizon, non-positive ones included, yields a normal
result. -/
theorem projection_fails_iff_zero_amount (t : String) (a h : ℝ) (z : Option Zone) :
    calculate_investment_returns t a h z = none ↔ a = 0 := by
  unfold calculate_investment_returns
  split_ifs with h0
  · simp [h0]
  · simp [h0]

/-- C4 counterexample: a user with recorded liabilities (50000) but no
income figure receives 0 debt points, not the 20-point default the claim
asserts — the 20-point branch is tied only to the absence of liabilities. -/
theorem debt_points_liabilities_no_income :
    debt_points (some ⟨0, 0, 0, 0, 0, 0, 50000⟩) 0 ≠ 20 := by decide

/-- C4 (amended): the 20-point debt default applies exactly when no
liabilities are recorded (no snapshot, or a snapshot whose liabilities are
zero/absent); when liabilities are recorded but no income figure is
available the debt factor contributes 0, not 20. -/
theorem debt_points_default (s : HealthSnapshot) (monthly_income : ℚ)
    (hl : s.liabilities ≠ 0) :
    debt_points none monthly_income = 20 ∧
      debt_points (some { s with liabilities := 0 }) monthly_income = 20 ∧
      debt_points (some s) 0 = 0 := by
  refine ⟨rfl, ?_, ?_⟩
  · simp [debt_points]
  · simp [debt_points, hl]

/-- Witness for the amended C4 at concrete inputs. -/
theorem debt_points_default_witness :
    debt_points none 40000 = 20 ∧
      debt_points (some { (⟨0, 0, 0, 0, 0, 0, 50000⟩ : HealthSnapshot) with
        liabilities := 0 }) 40000 = 20 ∧
      debt_points (some ⟨0, 0, 0, 0, 0, 0, 50000⟩) 0 = 0 :=
  debt_points_default ⟨0, 0, 0, 0, 0, 0, 50000⟩ 40000 (by norm_num)

/-- C7 counterexample: an asset class with a zero allocation does raise the
diversification score.  A 100% single-class mix extended with a zero-valued
entry has one non-zero class but scores 40 (the two-entry step), not the 20
the claim predicts. -/
theorem diversification_counts_zero_entries :
    calculate_diversification_score [("stocks", (100 : ℚ)), ("gold", 0)] ≠
      diversification_step_spec
        (nonzero_allocation_count [("stocks", (100 : ℚ)), ("gold", 0)]) := by
  decide

/-- C7 (amended): the diversification score is the step function
`0→0, 1→20, 2→40, 3 or 4→60, ≥5→90` of the number of entries of the
allocation mapping — zero-valued entries included — rather than of the
count of classes with non-zero allocation.  The concrete spec examples
(single-class mix scores 20, five-class mix scores 90) hold because those
mixes contain no zero-valued entries. -/
theorem diversification_step_of_entry_count (asset_allocation : List (String × ℚ)) :
    calculate_diversification_score asset_allocation =
      diversification_step_spec asset_allocation.length := by
  unfold calculate_diversification_score diversification_step_spec
  rcases asset_allocation with _ | ⟨a, l⟩
  · simp
  · simp only [List.isEmpty_cons, List.length_cons]
    split_ifs <;> omega

/-- C8: the zero-rate SIP is handled by the explicit linear branch,
`future_value = monthly_contribution * months` exactly, and for every
non-negative annual rate the dividing branch can only be entered with a
strictly positive monthly rate, so no division by zero is reachable. -/
theorem sip_zero_rate_linear (monthly_sip : ℚ) (time_period : ℕ)
    (annual_return : ℚ) (hr : 0 ≤ annual_return) :
    sip_future_value monthly_sip 0 time_period = monthly_sip * (time_period * 12) ∧
      (annual_return = 0 ∨ 0 < sip_monthly_return annual_return) := by
  constructor
  · norm_num [sip_future_value, sip_monthly_return]
  · rcases eq_or_lt_of_le hr with h | h
    · exact Or.inl h.symm
    · refine Or.inr ?_
      unfold sip_monthly_return
      positivity

/-- Witness for C8: `compute_sip(1000, 0, 5).future_value = 60000`. -/
theorem sip_zero_rate_linear_witness :
    sip_future_value 1000 0 5 = 60000 ∧
      ((0 : ℚ) = 0 ∨ 0 < sip_monthly_return 0) := by
  have h := sip_zero_rate_linear 1000 5 0 le_rfl
  exact ⟨by rw [h.1]; norm_num, h.2⟩

/-- The comparator of the investment-comparison sort is transitive. -/
theorem roi_descending_trans (a b c : ProjectionResult) :
    roi_descending a b → roi_descending b c → roi_descending a c := by
  simp only [roi_descending, decide_eq_true_eq]
  exact fun hab hbc => le_trans hbc hab

/-- The comparator of the investment-comparison sort is total. -/
theorem roi_descending_total (a b : ProjectionResult) :
    roi_descending a b || roi_descending b a := by
  simp only [roi_descending, Bool.or_eq_true, decide_eq_true_eq]
  exact le_total b.roi_percentage a.roi_percentage

/-- C10: whenever `compare_investments` returns a list, that list is sorted
in non-increasing order of `roi_percentage` (so its first element, used as
the top performer by the recommendation generator, has the maximal ROI). -/
theorem compare_investments_sorted (amount horizon_months : ℝ) (z : Option Zone) :
    (compare_investments amount horizon_months z).elim True fun l =>
      l.Pairwise fun x y => y.roi_percentage ≤ x.roi_percentage := by
  unfold compare_investments
  split_ifs with h0
  · trivial
  · simp only [Option.elim_some]
    refine List.Pairwise.imp ?_
      (List.sorted_mergeSort roi_descending_trans roi_descending_total _)
    intro a b hab
    simpa [roi_descending] using hab

end FutureRoi
